import Mathlib

/-!
Verification development for the Bankability Assessment Toolkit.

The repository ships the client-side JavaScript (main.js, forms.js,
charts.js) and the README; the quantitative assessment engine
(financial model, credit risk model, scoring engine, sensitivity
engine) is described by the design document but its Python source is
not in the tree, so those components are modelled here from the
design document's own formulas, and marked as such in the doc
comments.  All machine-number arithmetic is embedded over ℚ.
-/

/-! ## JavaScript value model (main.js, charts.js) -/

/-- A JavaScript value as it reaches the formatting helpers in
`app/static/js/main.js`: `null`, `undefined`, `NaN`, or a finite
number (embedded as a rational). -/
inductive JSValue where
  | null
  | undef
  | nan
  | num (q : ℚ)
deriving DecidableEq

/-- Round-half-up on the magnitude with the sign re-attached, the
rounding performed by `toFixed` / `toLocaleString` on the scaled
value: `n` is the integer closest to `|q|·10^d`, ties to the larger. -/
def jsRoundScaled (q : ℚ) (d : ℕ) : ℤ :=
  Int.floor (|q| * 10 ^ d + 1 / 2)

/-- Left-pad a digit string with `'0'` up to length `d`. -/
def padZeros (s : String) (d : ℕ) : String :=
  String.mk (List.replicate (d - s.length) '0') ++ s

/-- Insert a `','` every three characters counting from the right of
a reversed digit list; `fuel` bounds the recursion by the length. -/
def groupRev (fuel : ℕ) (l : List Char) : List Char :=
  match fuel with
  | 0 => l
  | fuel' + 1 =>
    if l.length ≤ 3 then l
    else l.take 3 ++ ',' :: groupRev fuel' (l.drop 3)

/-- en-US thousands grouping of a digit string. -/
def groupThousands (s : String) : String :=
  String.mk (groupRev s.data.length s.data.reverse).reverse

/-- Model of `Number(value).toLocaleString("en-US", {minimumFractionDigits: 0,
maximumFractionDigits: 0})`: round to an integer and insert en-US
thousands separators. -/
def toLocaleEnUS0 (q : ℚ) : String :=
  (if q < 0 then "-" else "") ++ groupThousands (toString (jsRoundScaled q 0).natAbs)

/-- Model of `Number.prototype.toFixed(d)`: sign, then the magnitude
rounded to `d` fraction digits. -/
def toFixed (q : ℚ) (d : ℕ) : String :=
  let n := (jsRoundScaled q d).natAbs
  let sign := if q < 0 then "-" else ""
  if d = 0 then sign ++ toString n
  else sign ++ toString (n / 10 ^ d) ++ "." ++ padZeros (toString (n % 10 ^ d)) d

/-- `window.formatCurrency` from `app/static/js/main.js`: `"N/A"` for
`null` / `undefined` / `NaN`, otherwise `"$"` followed by the en-US
zero-fraction-digit rendering. -/
def formatCurrency : JSValue → String
  | JSValue.null => "N/A"
  | JSValue.undef => "N/A"
  | JSValue.nan => "N/A"
  | JSValue.num q => "$" ++ toLocaleEnUS0 q

/-- The effective fraction-digit count `decimals || 1` in
`window.formatPercent`: `undefined` (argument omitted) and `0` are
falsy, so both yield `1`; any other count passes through. -/
def truthyDecimals : Option ℕ → ℕ
  | Option.none => 1
  | Option.some 0 => 1
  | Option.some n => n

/-- `window.formatPercent` from `app/static/js/main.js`: `"N/A"` for
`null` / `undefined` / `NaN`, otherwise `toFixed(decimals || 1)`
followed by `"%"`. -/
def formatPercent : JSValue → Option ℕ → String
  | JSValue.null, _ => "N/A"
  | JSValue.undef, _ => "N/A"
  | JSValue.nan, _ => "N/A"
  | JSValue.num q, d => toFixed q (truthyDecimals d) ++ "%"

/-! ## Chart rendering model (charts.js) -/

/-- Which chart canvases exist in the results page DOM when
`initResultsCharts` runs; each render helper checks its own
`document.getElementById` before drawing. -/
structure DOMState where
  cashFlowCanvas : Bool
  dscrCanvas : Bool
  radarCanvas : Bool
  cumulativeCanvas : Bool
deriving DecidableEq

/-- The four charts `charts.js` can render on the results page. -/
inductive ChartKind where
  | cashFlowBar
  | dscrLine
  | subScoreRadar
  | cumulativeLine
deriving DecidableEq

/-- One cash-flow row as serialized to `initResultsCharts`. -/
structure CFRow where
  year : ℕ
  revenue : ℚ
  opex : ℚ
  debt_service : ℚ
  free_cash_flow : ℚ
  cumulative_cf : ℚ
  dscr : ℚ
deriving DecidableEq

/-- One sub-score row as serialized to `initResultsCharts`. -/
structure SSRow where
  category : String
  score : ℚ
deriving DecidableEq

/-- `renderCashFlowChart`: draws iff its canvas exists. -/
def renderCashFlowChart (dom : DOMState) (_data : List CFRow) : List ChartKind :=
  if dom.cashFlowCanvas then [ChartKind.cashFlowBar] else []

/-- `renderDSCRChart`: draws iff its canvas exists. -/
def renderDSCRChart (dom : DOMState) (_data : List CFRow) : List ChartKind :=
  if dom.dscrCanvas then [ChartKind.dscrLine] else []

/-- `renderSubScoreRadar`: draws iff its canvas exists and the
sub-score list is non-empty. -/
def renderSubScoreRadar (dom : DOMState) (subScores : List SSRow) : List ChartKind :=
  if dom.radarCanvas && !subScores.isEmpty then [ChartKind.subScoreRadar] else []

/-- `renderCumulativeCFChart`: draws iff its canvas exists. -/
def renderCumulativeCFChart (dom : DOMState) (_data : List CFRow) : List ChartKind :=
  if dom.cumulativeCanvas then [ChartKind.cumulativeLine] else []

/-- `window.initResultsCharts` from `charts.js`: the guard
`if (!cashFlows || cashFlows.length === 0) return;` maps to the
`Option.none` (null/undefined) and empty-list cases; otherwise all
four render helpers run in source order.  The return value is the
list of charts actually drawn. -/
def initResultsCharts (dom : DOMState) (cashFlows : Option (List CFRow))
    (subScores : List SSRow) : List ChartKind :=
  match cashFlows with
  | Option.none => []
  | Option.some cfs =>
    if cfs.isEmpty then []
    else
      renderCashFlowChart dom cfs ++ renderDSCRChart dom cfs ++
        renderSubScoreRadar dom subScores ++ renderCumulativeCFChart dom cfs

/-! ## Tier grade (README score table, design §4.4) -/

/-- Modelled from the spec: the overall-score tier table of the README
(80–100 Investment Grade, 65–79 Near Investment Grade, 50–64
Sub-Investment Grade, 35–49 Speculative, 0–34 Pre-Bankable), read as
ascending half-open bands over the real score range. -/
def tierGrade (s : ℚ) : String :=
  if s < 35 then "Pre-Bankable"
  else if s < 50 then "Speculative"
  else if s < 65 then "Sub-Investment Grade"
  else if s < 80 then "Near Investment Grade"
  else "Investment Grade"

/-- The claim's reading of the thresholds: descending
lower-bound-inclusive comparisons (≥80, ≥65, ≥50, ≥35, else). -/
def claimGradeThresholds (s : ℚ) : String :=
  if 80 ≤ s then "Investment Grade"
  else if 65 ≤ s then "Near Investment Grade"
  else if 50 ≤ s then "Sub-Investment Grade"
  else if 35 ≤ s then "Speculative"
  else "Pre-Bankable"

/-! ## Data model (design §3), modelled from the spec -/

/-- Modelled from the spec: the enumerated technology variants of
ProjectInput (§3). -/
inductive TechnologyType where
  | solarPV
  | csp
  | onshoreWind
  | offshoreWind
  | batteryStorage
  | gasCC
  | gasCT
  | nuclear
  | smr
  | hydro
  | geothermal
  | biomass
  | coalIGCC
  | transmission
deriving DecidableEq

/-- Modelled from the spec: offtake contract type (§3, §4.3). -/
inductive OfftakeContract where
  | longTermPPA
  | shortTermPPA
  | hedge
  | merchant
deriving DecidableEq

/-- Modelled from the spec: ordinal counterparty credit rating scale
(§3, "AAA…D"). -/
inductive CreditRating where
  | tripleA
  | doubleA
  | singleA
  | tripleB
  | doubleB
  | singleB
  | tripleC
  | dflt
deriving DecidableEq

/-- Modelled from the spec: borrower entity type (§3). -/
inductive EntityType where
  | investorOwnedUtility
  | cooperative
  | municipalUtility
  | independentPower
  | developer
deriving DecidableEq

/-- Modelled from the spec: development stage (§3, §4.4). -/
inductive DevelopmentStage where
  | earlyDevelopment
  | advancedDevelopment
  | construction
  | operational
deriving DecidableEq

/-- Modelled from the spec: permitting / interconnection status
(§3, §4.4). -/
inductive StatusLevel where
  | complete
  | inProgress
  | notStarted
deriving DecidableEq

/-- Modelled from the spec: EPC contract type (§3, §4.4). -/
inductive EPCContractType where
  | fixedPriceTurnkey
  | multiContract
  | costPlus
  | noEPC
deriving DecidableEq

/-- Modelled from the spec: ProjectInput (§3), the immutable
per-assessment project description.  `leverage` is the leverage
fraction of total cost financed by debt; `omCostPerMW` carries the
O&M assumption scaled by capacity in §4.2's opex formula. -/
structure ProjectInput where
  projectName : String
  technologyType : TechnologyType
  capacityMW : ℚ
  capacityFactor : ℚ
  degradationRate : ℚ
  availability : ℚ
  totalCost : ℚ
  leverage : ℚ
  interestRate : ℚ
  loanTenor : ℕ
  contractPrice : ℚ
  omCostPerMW : ℚ
  offtakeContract : OfftakeContract
  counterpartyRating : CreditRating
  entityType : EntityType
  constructionRisk : Bool
  developmentStage : DevelopmentStage
  permittingStatus : StatusLevel
  interconnectionStatus : StatusLevel
  epcContractType : EPCContractType
  merchantPrice : ℚ
  resourceQuality : ℚ
  regulatoryEnvironment : ℚ
deriving DecidableEq

/-- Modelled from the spec: the Data Model invariants on ProjectInput
(§3): capacity > 0; 0 ≤ capacity factor, availability ≤ 1;
0 ≤ leverage ≤ 1; tenor > 0. -/
def validInput (inp : ProjectInput) : Prop :=
  0 < inp.capacityMW ∧ 0 ≤ inp.capacityFactor ∧ inp.capacityFactor ≤ 1 ∧
    0 ≤ inp.availability ∧ inp.availability ≤ 1 ∧
    0 ≤ inp.leverage ∧ inp.leverage ≤ 1 ∧ 0 < inp.loanTenor

instance (inp : ProjectInput) : Decidable (validInput inp) := by
  unfold validInput; infer_instance

/-- Modelled from the spec: the run configuration of
`runFinancialModel` (§6): discount rate, O&M escalation rate, price
escalation rate, effective tax rate, project operating life. -/
structure FMConfig where
  discountRate : ℚ
  omEscalation : ℚ
  priceEscalation : ℚ
  taxRate : ℚ
  projectLife : ℕ
deriving DecidableEq

/-- Modelled from the spec: one CashFlowYear row (§3): revenue,
operating expenses, debt service, free cash flow, cumulative cash
flow, and DSCR with `Option.none` as the sentinel for zero debt
service. -/
structure CashFlowYear where
  year : ℕ
  revenue : ℚ
  opex : ℚ
  debtService : ℚ
  freeCashFlow : ℚ
  cumulative : ℚ
  dscr : Option ℚ
deriving DecidableEq

/-! ## Calculation utilities (design §4.1), modelled from the spec -/

/-- Modelled from the spec: `presentValue(cashFlows, discountRate)` =
Σ cashFlow[t] / (1+discountRate)^t with t starting at 1 (§4.1). -/
def presentValue (cashFlows : List ℚ) (discountRate : ℚ) : ℚ :=
  (cashFlows.enum.map (fun p => p.2 / (1 + discountRate) ^ (p.1 + 1))).sum

/-- Modelled from the spec: the constant annual payment of a
standard level-payment amortization over `term` years (§4.1); for a
zero rate the payment degenerates to straight-line principal. -/
def levelPayment (principal rate : ℚ) (term : ℕ) : ℚ :=
  if rate = 0 then principal / term
  else principal * rate * (1 + rate) ^ term / ((1 + rate) ^ term - 1)

/-- NPV of a cash flow series at rate `r` with period index starting
at 0 (the IRR solver's objective, §4.1: the upfront cost sits at
index 0). -/
def npvAt (cashFlows : List ℚ) (r : ℚ) : ℚ :=
  (cashFlows.enum.map (fun p => p.2 / (1 + r) ^ p.1)).sum

/-- Analytic derivative of `npvAt` with respect to the rate:
Σ -i·cf[i]/(1+r)^(i+1). -/
def npvDerivAt (cashFlows : List ℚ) (r : ℚ) : ℚ :=
  (cashFlows.enum.map (fun p => -(p.1 : ℚ) * p.2 / (1 + r) ^ (p.1 + 1))).sum

/-- Absolute NPV tolerance for the IRR solver (§4.1, "a small
absolute tolerance"). -/
def irrTol : ℚ := 1 / 1000000

/-- Modelled from the spec: Newton-Raphson iteration for the IRR
(§4.1): step from `r` by `-npv/npv'` until |npv| is below the
tolerance or the fuel (iteration cap) runs out; a vanishing
derivative aborts to the fallback. -/
def newtonIter (cashFlows : List ℚ) : ℕ → ℚ → Option ℚ
  | 0, _ => Option.none
  | fuel + 1, r =>
    let f := npvAt cashFlows r
    if |f| < irrTol then Option.some r
    else
      let f' := npvDerivAt cashFlows r
      if f' = 0 then Option.none
      else newtonIter cashFlows fuel (r - f / f')

/-- Modelled from the spec: the Newton-Raphson phase, started from
the 10% initial guess with a 100-iteration cap (§4.1). -/
def newtonSolve (cashFlows : List ℚ) : Option ℚ :=
  newtonIter cashFlows 100 (1 / 10)

/-- Modelled from the spec: bisection on the NPV sign change (§4.1);
keeps the half interval whose endpoints bracket the root. -/
def bisectIter (cashFlows : List ℚ) : ℕ → ℚ → ℚ → Option ℚ
  | 0, lo, hi =>
    let m := (lo + hi) / 2
    if |npvAt cashFlows m| < irrTol then Option.some m else Option.none
  | fuel + 1, lo, hi =>
    let m := (lo + hi) / 2
    let fm := npvAt cashFlows m
    if |fm| < irrTol then Option.some m
    else if npvAt cashFlows lo * fm < 0 then bisectIter cashFlows fuel lo m
    else bisectIter cashFlows fuel m hi

/-- Modelled from the spec: the bisection fallback over the bounded
rate range -99% to 1000% (§4.1); without a sign change over the
bracket no root can be bounded and the phase fails. -/
def bisectionSolve (cashFlows : List ℚ) : Option ℚ :=
  if npvAt cashFlows (-99 / 100) * npvAt cashFlows 10 < 0 then
    bisectIter cashFlows 200 (-99 / 100) 10
  else Option.none

/-- Modelled from the spec: `internalRateOfReturn` (§4.1, §9): the
Trying-Newton → Trying-Bisection → Converged | NotComputed state
machine; `Option.none` is the "not computed" sentinel, a first-class
result state. -/
def internalRateOfReturn (cashFlows : List ℚ) : Option ℚ :=
  match newtonSolve cashFlows with
  | Option.some r => Option.some r
  | Option.none => bisectionSolve cashFlows

/-! ## Financial model (design §4.2), modelled from the spec -/

/-- Modelled from the spec: revenue for operating year `y` (§4.2):
capacity × capacity factor × (1 − degradation)^(year−1) ×
availability × price, escalated per the configured escalation rate. -/
def yearRevenue (inp : ProjectInput) (cfg : FMConfig) (y : ℕ) : ℚ :=
  inp.capacityMW * inp.capacityFactor * (1 - inp.degradationRate) ^ (y - 1) *
    inp.availability * inp.contractPrice * (1 + cfg.priceEscalation) ^ (y - 1)

/-- Modelled from the spec: operating expenses for year `y` (§4.2):
the configured O&M assumption scaled by capacity and escalated. -/
def yearOpex (inp : ProjectInput) (cfg : FMConfig) (y : ℕ) : ℚ :=
  inp.omCostPerMW * inp.capacityMW * (1 + cfg.omEscalation) ^ (y - 1)

/-- Modelled from the spec: debt service for year `y` (§4.2): the
amortization row for that year, with principal = leverage × total
cost at the configured interest rate over the tenor.  Each row of a
level-payment schedule has interest + principal equal to the constant
level payment, and the schedule is exhausted after the tenor, so debt
service is the level payment within the tenor and 0 afterwards. -/
def yearDebtService (inp : ProjectInput) (y : ℕ) : ℚ :=
  if y ≤ inp.loanTenor then
    levelPayment (inp.leverage * inp.totalCost) inp.interestRate inp.loanTenor
  else 0

/-- Modelled from the spec: free cash flow for year `y` (§4.2):
revenue − opex − debt service. -/
def yearFreeCashFlow (inp : ProjectInput) (cfg : FMConfig) (y : ℕ) : ℚ :=
  yearRevenue inp cfg y - yearOpex inp cfg y - yearDebtService inp y

/-- Modelled from the spec: DSCR for year `y` (§4.2):
(revenue − opex) / debt service, with the `Option.none` sentinel when
debt service is zero (post-tenor years). -/
def yearDSCR (inp : ProjectInput) (cfg : FMConfig) (y : ℕ) : Option ℚ :=
  if yearDebtService inp y = 0 then Option.none
  else Option.some ((yearRevenue inp cfg y - yearOpex inp cfg y) / yearDebtService inp y)

/-- Modelled from the spec: the year-by-year pro forma rows (§4.2),
built for `n` successive years starting at year `y` with cumulative
cash flow accumulated from `acc` (§4.2: cumulative cash flow is the
running sum of free cash flow). -/
def buildRows (inp : ProjectInput) (cfg : FMConfig) : ℕ → ℕ → ℚ → List CashFlowYear
  | 0, _, _ => []
  | n + 1, y, acc =>
    let f := yearFreeCashFlow inp cfg y
    { year := y
      revenue := yearRevenue inp cfg y
      opex := yearOpex inp cfg y
      debtService := yearDebtService inp y
      freeCashFlow := f
      cumulative := acc + f
      dscr := yearDSCR inp cfg y } :: buildRows inp cfg n (y + 1) (acc + f)

/-- Modelled from the spec: the full CashFlowYear sequence of one
run, years 1 .. projectLife (§4.2, §8). -/
def cashFlowSeries (inp : ProjectInput) (cfg : FMConfig) : List CashFlowYear :=
  buildRows inp cfg cfg.projectLife 1 0

/-- Modelled from the spec: energy produced in year `y` (§4.2's LCOE
denominator): capacity × capacity factor × (1 − degradation)^(y−1) ×
availability. -/
def yearEnergy (inp : ProjectInput) (y : ℕ) : ℚ :=
  inp.capacityMW * inp.capacityFactor * (1 - inp.degradationRate) ^ (y - 1) *
    inp.availability

/-- Modelled from the spec: FinancialResult (§3): the CashFlowYear
sequence plus NPV, IRR (with the "not computed" sentinel), LCOE,
minimum and average DSCR, debt yield, equity multiple. -/
structure FinancialResult where
  cashFlows : List CashFlowYear
  npv : ℚ
  irr : Option ℚ
  lcoe : ℚ
  minDSCR : Option ℚ
  avgDSCR : ℚ
  debtYield : ℚ
  equityMultiple : ℚ
deriving DecidableEq

/-- Minimum of the defined (non-sentinel) DSCR values of a run;
`Option.none` when no year has a defined DSCR. -/
def minDefinedDSCR (rows : List CashFlowYear) : Option ℚ :=
  match rows.filterMap CashFlowYear.dscr with
  | [] => Option.none
  | x :: xs => Option.some (xs.foldl min x)

/-- Average of the defined DSCR values of a run (0 when none). -/
def avgDefinedDSCR (rows : List CashFlowYear) : ℚ :=
  let ds := rows.filterMap CashFlowYear.dscr
  if ds.length = 0 then 0 else ds.sum / ds.length

/-- Modelled from the spec: `runFinancialModel(ProjectInput,
configuration) → FinancialResult` (§4.2, §6): builds the pro forma
rows, then NPV of the free cash flows at the configured discount rate
net of the equity investment, IRR of the equity cash flow series,
LCOE = discounted total cost ÷ discounted total energy, the DSCR
aggregates, debt yield = year-1 NOI ÷ debt at origination, and
equity multiple = total distributions ÷ equity invested. -/
def runFinancialModel (inp : ProjectInput) (cfg : FMConfig) : FinancialResult :=
  let rows := cashFlowSeries inp cfg
  let fcfs := rows.map CashFlowYear.freeCashFlow
  let equity := (1 - inp.leverage) * inp.totalCost
  let debt := inp.leverage * inp.totalCost
  let energySeries := (List.range cfg.projectLife).map (fun i => yearEnergy inp (i + 1))
  let opexSeries := rows.map CashFlowYear.opex
  { cashFlows := rows
    npv := presentValue fcfs cfg.discountRate - equity
    irr := internalRateOfReturn (-equity :: fcfs)
    lcoe := (inp.totalCost + presentValue opexSeries cfg.discountRate) /
      presentValue energySeries cfg.discountRate
    minDSCR := minDefinedDSCR rows
    avgDSCR := avgDefinedDSCR rows
    debtYield := (yearRevenue inp cfg 1 - yearOpex inp cfg 1) / debt
    equityMultiple := fcfs.sum / equity }

/-! ## Credit risk model (design §4.3), modelled from the spec -/

/-- Modelled from the spec: CreditRiskResult (§3): probability of
default, loss given default, expected loss, equivalent rating. -/
structure CreditRiskResult where
  pd : ℚ
  lgd : ℚ
  expectedLoss : ℚ
  equivalentRating : CreditRating
deriving DecidableEq

/-- Modelled from the spec: base probability of default keyed to the
counterparty rating (§4.3); representative configurable defaults. -/
def ratingBasePD : CreditRating → ℚ
  | CreditRating.tripleA => 1 / 1000
  | CreditRating.doubleA => 2 / 1000
  | CreditRating.singleA => 5 / 1000
  | CreditRating.tripleB => 15 / 1000
  | CreditRating.doubleB => 50 / 1000
  | CreditRating.singleB => 120 / 1000
  | CreditRating.tripleC => 300 / 1000
  | CreditRating.dflt => 1

/-- Modelled from the spec: contract-type multiplier on the base PD
(§4.3); representative configurable defaults. -/
def contractPDFactor : OfftakeContract → ℚ
  | OfftakeContract.longTermPPA => 1
  | OfftakeContract.shortTermPPA => 6 / 5
  | OfftakeContract.hedge => 3 / 2
  | OfftakeContract.merchant => 2

/-- Modelled from the spec: loss given default keyed to the
technology type (§4.3); representative configurable defaults. -/
def technologyLGD : TechnologyType → ℚ
  | TechnologyType.solarPV => 35 / 100
  | TechnologyType.csp => 55 / 100
  | TechnologyType.onshoreWind => 40 / 100
  | TechnologyType.offshoreWind => 50 / 100
  | TechnologyType.batteryStorage => 45 / 100
  | TechnologyType.gasCC => 40 / 100
  | TechnologyType.gasCT => 45 / 100
  | TechnologyType.nuclear => 60 / 100
  | TechnologyType.smr => 65 / 100
  | TechnologyType.hydro => 35 / 100
  | TechnologyType.geothermal => 50 / 100
  | TechnologyType.biomass => 55 / 100
  | TechnologyType.coalIGCC => 65 / 100
  | TechnologyType.transmission => 30 / 100

/-- Modelled from the spec: the equivalent rating derived from the
computed PD via fixed ordinal threshold bands (§4.3). -/
def ratingFromPD (pd : ℚ) : CreditRating :=
  if pd ≤ 1 / 1000 then CreditRating.tripleA
  else if pd ≤ 3 / 1000 then CreditRating.doubleA
  else if pd ≤ 8 / 1000 then CreditRating.singleA
  else if pd ≤ 25 / 1000 then CreditRating.tripleB
  else if pd ≤ 80 / 1000 then CreditRating.doubleB
  else if pd ≤ 200 / 1000 then CreditRating.singleB
  else if pd ≤ 500 / 1000 then CreditRating.tripleC
  else CreditRating.dflt

/-- Modelled from the spec: `assessCreditRisk(ProjectInput,
FinancialResult) → CreditRiskResult` (§4.3, §6): base PD from rating
and contract type, adjusted upward for a sub-threshold minimum DSCR
and for construction-stage risk, capped at 1; LGD from technology;
expected loss = PD × LGD × exposure (debt at origination); rating via
the PD threshold bands. -/
def assessCreditRisk (inp : ProjectInput) (fin : FinancialResult) : CreditRiskResult :=
  let pd0 := ratingBasePD inp.counterpartyRating * contractPDFactor inp.offtakeContract
  let pd1 := match fin.minDSCR with
    | Option.some d => if d < 6 / 5 then pd0 * 3 / 2 else pd0
    | Option.none => pd0
  let pd2 := if inp.constructionRisk then pd1 * 5 / 4 else pd1
  let pd := min 1 pd2
  let lgd := technologyLGD inp.technologyType
  { pd := pd
    lgd := lgd
    expectedLoss := pd * lgd * (inp.leverage * inp.totalCost)
    equivalentRating := ratingFromPD pd }

/-! ## Bankability scoring engine (design §4.4), modelled from the spec -/

/-- Modelled from the spec: one SubScore (§3): category name, a 0–100
score, and the contributing factor breakdown (factor name ↦ points
earned / points possible). -/
structure SubScore where
  category : String
  score : ℚ
  factors : List (String × ℚ × ℚ)
deriving DecidableEq

/-- Modelled from the spec: the configured dimension weights (§3):
Technology 0.20, Financial 0.25, Credit 0.20, Structure 0.20,
Market 0.15. -/
structure ScoringWeights where
  technology : ℚ
  financial : ℚ
  credit : ℚ
  structur : ℚ
  market : ℚ
deriving DecidableEq

/-- Modelled from the spec: the default dimension weights (§3). -/
def defaultWeights : ScoringWeights :=
  { technology := 20 / 100, financial := 25 / 100, credit := 20 / 100,
    structur := 20 / 100, market := 15 / 100 }

/-- Clamp a raw point sum to the 0–100 score range (§4.4). -/
def clampScore (x : ℚ) : ℚ := max 0 (min 100 x)

/-- Modelled from the spec: technology maturity points per technology
type (§4.4, technology benchmark data); representative configurable
defaults on a 0–60 scale. -/
def techMaturityPoints : TechnologyType → ℚ
  | TechnologyType.solarPV => 60
  | TechnologyType.csp => 35
  | TechnologyType.onshoreWind => 58
  | TechnologyType.offshoreWind => 45
  | TechnologyType.batteryStorage => 48
  | TechnologyType.gasCC => 60
  | TechnologyType.gasCT => 58
  | TechnologyType.nuclear => 40
  | TechnologyType.smr => 25
  | TechnologyType.hydro => 55
  | TechnologyType.geothermal => 45
  | TechnologyType.biomass => 40
  | TechnologyType.coalIGCC => 20
  | TechnologyType.transmission => 55

/-- Modelled from the spec: Technology dimension sub-score (§4.4):
technology maturity against per-type benchmarks plus resource
quality (0–100 indicator scaled to 40 points), clamped to [0,100]. -/
def technologySubScore (inp : ProjectInput) : SubScore :=
  let maturity := techMaturityPoints inp.technologyType
  let resource := (2 / 5) * inp.resourceQuality
  { category := "Technology"
    score := clampScore (maturity + resource)
    factors := [("technology_maturity", maturity, 60), ("resource_quality", resource, 40)] }

/-- Modelled from the spec: tiered points for the minimum DSCR
(§4.4: "minimum DSCR against tiered thresholds"); the IRR/DSCR
sentinel earns zero weight per §7. -/
def dscrPoints : Option ℚ → ℚ
  | Option.none => 0
  | Option.some d =>
    if 7 / 5 ≤ d then 40
    else if 6 / 5 ≤ d then 30
    else if 1 ≤ d then 15
    else 0

/-- Modelled from the spec: points for the IRR against a hurdle rate
(§4.4); the "not computed" sentinel earns zero weight per §7. -/
def irrPoints : Option ℚ → ℚ
  | Option.none => 0
  | Option.some r =>
    if 12 / 100 ≤ r then 30
    else if 8 / 100 ≤ r then 20
    else 5

/-- Modelled from the spec: points for the leverage ratio against
benchmarks (§4.4). -/
def leveragePoints (l : ℚ) : ℚ :=
  if l ≤ 70 / 100 then 30
  else if l ≤ 80 / 100 then 20
  else 10

/-- Modelled from the spec: Financial dimension sub-score (§4.4):
minimum DSCR, IRR versus hurdle, and leverage versus benchmarks,
clamped to [0,100]. -/
def financialSubScore (inp : ProjectInput) (fin : FinancialResult) : SubScore :=
  let d := dscrPoints fin.minDSCR
  let i := irrPoints fin.irr
  let l := leveragePoints inp.leverage
  { category := "Financial"
    score := clampScore (d + i + l)
    factors := [("min_dscr", d, 40), ("irr_vs_hurdle", i, 30), ("leverage", l, 30)] }

/-- Modelled from the spec: counterparty rating points (§4.4). -/
def ratingPoints : CreditRating → ℚ
  | CreditRating.tripleA => 40
  | CreditRating.doubleA => 37
  | CreditRating.singleA => 33
  | CreditRating.tripleB => 28
  | CreditRating.doubleB => 18
  | CreditRating.singleB => 10
  | CreditRating.tripleC => 4
  | CreditRating.dflt => 0

/-- Modelled from the spec: offtake contract type points (§4.4). -/
def contractPoints : OfftakeContract → ℚ
  | OfftakeContract.longTermPPA => 30
  | OfftakeContract.shortTermPPA => 20
  | OfftakeContract.hedge => 15
  | OfftakeContract.merchant => 5

/-- Modelled from the spec: points for the credit risk model's
computed PD (§4.4). -/
def pdPoints (pd : ℚ) : ℚ :=
  if pd ≤ 2 / 100 then 30
  else if pd ≤ 5 / 100 then 20
  else if pd ≤ 10 / 100 then 10
  else 0

/-- Modelled from the spec: Credit dimension sub-score (§4.4):
counterparty rating, contract type, and the Credit Risk Model's PD,
clamped to [0,100]. -/
def creditSubScore (inp : ProjectInput) (credit : CreditRiskResult) : SubScore :=
  let r := ratingPoints inp.counterpartyRating
  let c := contractPoints inp.offtakeContract
  let p := pdPoints credit.pd
  { category := "Credit"
    score := clampScore (r + c + p)
    factors := [("counterparty_rating", r, 40), ("offtake_contract", c, 30), ("pd", p, 30)] }

/-- Modelled from the spec: development stage points (§4.4). -/
def stagePoints : DevelopmentStage → ℚ
  | DevelopmentStage.operational => 30
  | DevelopmentStage.construction => 25
  | DevelopmentStage.advancedDevelopment => 15
  | DevelopmentStage.earlyDevelopment => 5

/-- Modelled from the spec: permitting / interconnection status
points (§4.4). -/
def statusPoints : StatusLevel → ℚ
  | StatusLevel.complete => 25
  | StatusLevel.inProgress => 15
  | StatusLevel.notStarted => 0

/-- Modelled from the spec: EPC contract type points (§4.4). -/
def epcPoints : EPCContractType → ℚ
  | EPCContractType.fixedPriceTurnkey => 20
  | EPCContractType.multiContract => 12
  | EPCContractType.costPlus => 8
  | EPCContractType.noEPC => 0

/-- Modelled from the spec: Structure dimension sub-score (§4.4):
development stage, permitting and interconnection status, EPC
contract type, clamped to [0,100]. -/
def structureSubScore (inp : ProjectInput) : SubScore :=
  let s := stagePoints inp.developmentStage
  let p := statusPoints inp.permittingStatus
  let i := statusPoints inp.interconnectionStatus
  let e := epcPoints inp.epcContractType
  { category := "Structure"
    score := clampScore (s + p + i + e)
    factors := [("development_stage", s, 30), ("permitting", p, 25),
      ("interconnection", i, 25), ("epc_contract", e, 20)] }

/-- Modelled from the spec: points for the contracted price against
the merchant/wholesale assumption (§4.4). -/
def pricePoints (contractPrice merchantPrice : ℚ) : ℚ :=
  if contractPrice ≤ merchantPrice then 50
  else if contractPrice ≤ merchantPrice * 6 / 5 then 35
  else 15

/-- Modelled from the spec: Market dimension sub-score (§4.4): price
assumptions weighed against the regulatory-environment indicator
(0–100 indicator scaled to 50 points), clamped to [0,100]. -/
def marketSubScore (inp : ProjectInput) : SubScore :=
  let p := pricePoints inp.contractPrice inp.merchantPrice
  let r := (1 / 2) * inp.regulatoryEnvironment
  { category := "Market"
    score := clampScore (p + r)
    factors := [("price_vs_market", p, 50), ("regulatory_environment", r, 50)] }

/-- Modelled from the spec: BankabilityResult (§3): the five
SubScores, the weighted composite, the tier grade, and the
FinancialResult and CreditRiskResult the assessment used. -/
structure BankabilityResult where
  technology : SubScore
  financial : SubScore
  credit : SubScore
  structur : SubScore
  market : SubScore
  overall : ℚ
  grade : String
  financialResult : FinancialResult
  creditRisk : CreditRiskResult
deriving DecidableEq

/-- Modelled from the spec: `scoreBankability(ProjectInput,
configuration) → BankabilityResult` (§4.4, §6): runs the Financial
Model once, feeds it to the Credit Risk Model once, computes the five
dimension sub-scores, the weighted composite and the tier grade. -/
def scoreBankability (inp : ProjectInput) (cfg : FMConfig) : BankabilityResult :=
  let fin := runFinancialModel inp cfg
  let credit := assessCreditRisk inp fin
  let t := technologySubScore inp
  let f := financialSubScore inp fin
  let c := creditSubScore inp credit
  let s := structureSubScore inp
  let m := marketSubScore inp
  let w := defaultWeights
  let overall := w.technology * t.score + w.financial * f.score +
    w.credit * c.score + w.structur * s.score + w.market * m.score
  { technology := t, financial := f, credit := c, structur := s, market := m
    overall := overall
    grade := tierGrade overall
    financialResult := fin
    creditRisk := credit }

/-! ## Sensitivity engine (design §4.5), modelled from the spec -/

/-- Modelled from the spec: the configured factor set of the
sensitivity sweep (§4.5): revenue/price, operating cost, capital
cost, interest rate, capacity factor. -/
inductive SensFactor where
  | revenuePrice
  | operatingCost
  | capitalCost
  | interestRate
  | capacityFactor
deriving DecidableEq

/-- Modelled from the spec: the fixed perturbation levels (§4.5):
−20%, −10%, +10%, +20%. -/
def perturbLevels : List ℚ := [-(1 / 5), -(1 / 10), 1 / 10, 1 / 5]

/-- Modelled from the spec: the modified ProjectInput for one
(factor, level) pair (§4.5): exactly the one factor's field is scaled
by (1 + level); all other fields are held at base-case values. -/
def applyPerturb (inp : ProjectInput) (f : SensFactor) (level : ℚ) : ProjectInput :=
  match f with
  | SensFactor.revenuePrice => { inp with contractPrice := inp.contractPrice * (1 + level) }
  | SensFactor.operatingCost => { inp with omCostPerMW := inp.omCostPerMW * (1 + level) }
  | SensFactor.capitalCost => { inp with totalCost := inp.totalCost * (1 + level) }
  | SensFactor.interestRate => { inp with interestRate := inp.interestRate * (1 + level) }
  | SensFactor.capacityFactor => { inp with capacityFactor := inp.capacityFactor * (1 + level) }

/-- Modelled from the spec: one SensitivityResult entry (§3, §4.5):
the perturbed run's key metrics (NPV, IRR, minimum DSCR), the
recorded base-case values, and the delta versus the base case. -/
structure SensitivityResult where
  factor : SensFactor
  level : ℚ
  npv : ℚ
  irr : Option ℚ
  minDSCR : Option ℚ
  baseNPV : ℚ
  baseIRR : Option ℚ
  baseMinDSCR : Option ℚ
  deltaNPV : ℚ
deriving DecidableEq

/-- Modelled from the spec: one sweep entry (§4.5): re-invokes the
Financial Model on the input perturbed in the one factor only, and
records metrics, base-case values and delta. -/
def sensEntry (inp : ProjectInput) (cfg : FMConfig) (base : FinancialResult)
    (f : SensFactor) (level : ℚ) : SensitivityResult :=
  let r := runFinancialModel (applyPerturb inp f level) cfg
  { factor := f, level := level, npv := r.npv, irr := r.irr, minDSCR := r.minDSCR,
    baseNPV := base.npv, baseIRR := base.irr, baseMinDSCR := base.minDSCR,
    deltaNPV := r.npv - base.npv }

/-- Modelled from the spec: `runSensitivity(ProjectInput,
configuration, factorSet)` (§4.5, §6): one entry per (factor, level)
pair, one factor varied at a time, all others held at base-case
values; the base ProjectInput is never modified. -/
def runSensitivity (inp : ProjectInput) (cfg : FMConfig)
    (factors : List SensFactor) : List SensitivityResult :=
  let base := runFinancialModel inp cfg
  (factors.map (fun f => perturbLevels.map (sensEntry inp cfg base f))).flatten

/-! ## Spec-side reference definitions and concrete samples -/

/-- The spec's wording of the cumulative cash flow property (§8):
position N holds the sum of the values at positions 1..N. -/
def specCumulativeSums (l : List ℚ) : List ℚ :=
  (List.range l.length).map (fun i => (l.take (i + 1)).sum)

/-- A small concrete project used as a witness input: 10 MW at 50%
capacity factor, no degradation or escalation, $600 total cost at 50%
leverage, a 2-year zero-interest loan, $40 contracted price. -/
def sampleInput : ProjectInput :=
  { projectName := "Sample Solar"
    technologyType := TechnologyType.solarPV
    capacityMW := 10
    capacityFactor := 1 / 2
    degradationRate := 0
    availability := 1
    totalCost := 600
    leverage := 1 / 2
    interestRate := 0
    loanTenor := 2
    contractPrice := 40
    omCostPerMW := 5
    offtakeContract := OfftakeContract.longTermPPA
    counterpartyRating := CreditRating.singleA
    entityType := EntityType.cooperative
    constructionRisk := false
    developmentStage := DevelopmentStage.construction
    permittingStatus := StatusLevel.complete
    interconnectionStatus := StatusLevel.inProgress
    epcContractType := EPCContractType.fixedPriceTurnkey
    merchantPrice := 45
    resourceQuality := 80
    regulatoryEnvironment := 70 }

/-- A small concrete run configuration: 8% discount rate, no
escalation, 21% tax rate, 3 operating years. -/
def sampleConfig : FMConfig :=
  { discountRate := 8 / 100
    omEscalation := 0
    priceEscalation := 0
    taxRate := 21 / 100
    projectLife := 3 }

/-! ## Supporting lemmas -/

lemma clampScore_bounds (x : ℚ) : 0 ≤ clampScore x ∧ clampScore x ≤ 100 :=
  ⟨le_max_left 0 _, max_le (by norm_num) (min_le_left 100 x)⟩

lemma specCumulativeSums_cons (x : ℚ) (xs : List ℚ) :
    specCumulativeSums (x :: xs) = x :: (specCumulativeSums xs).map (fun s => x + s) := by
  simp [specCumulativeSums, List.range_succ_eq_map, List.map_map, Function.comp_def,
    List.take_succ_cons, List.sum_cons]

lemma buildRows_length (inp : ProjectInput) (cfg : FMConfig) :
    ∀ (n y : ℕ) (acc : ℚ), (buildRows inp cfg n y acc).length = n := by
  intro n
  induction n with
  | zero => intro y acc; rfl
  | succ n ih => intro y acc; simp [buildRows, ih]

lemma buildRows_cumulative (inp : ProjectInput) (cfg : FMConfig) :
    ∀ (n y : ℕ) (acc : ℚ),
      (buildRows inp cfg n y acc).map CashFlowYear.cumulative
        = (specCumulativeSums
            ((buildRows inp cfg n y acc).map CashFlowYear.freeCashFlow)).map
              (fun s => acc + s) := by
  intro n
  induction n with
  | zero => intro y acc; simp [buildRows, specCumulativeSums]
  | succ n ih =>
    intro y acc
    simp only [buildRows, List.map_cons, specCumulativeSums_cons]
    refine List.cons_eq_cons.mpr ⟨rfl, ?_⟩
    rw [ih (y + 1) (acc + yearFreeCashFlow inp cfg y), List.map_map]
    simp [Function.comp_def, add_assoc]

lemma buildRows_dscr_sentinel (inp : ProjectInput) (cfg : FMConfig) :
    ∀ (n y : ℕ) (acc : ℚ), ∀ e ∈ buildRows inp cfg n y acc,
      e.debtService = 0 → e.dscr = Option.none := by
  intro n
  induction n with
  | zero => intro y acc e he; simp [buildRows] at he
  | succ n ih =>
    intro y acc e he hz
    rw [buildRows, List.mem_cons] at he
    rcases he with he | he
    · subst he
      simp only at hz ⊢
      simp [yearDSCR, hz]
    · exact ih (y + 1) _ e he hz

lemma runFinancialModel_cashFlows (inp : ProjectInput) (cfg : FMConfig) :
    (runFinancialModel inp cfg).cashFlows = cashFlowSeries inp cfg := rfl

lemma newtonIter_tol (cashFlows : List ℚ) :
    ∀ (fuel : ℕ) (r r' : ℚ), newtonIter cashFlows fuel r = Option.some r' →
      |npvAt cashFlows r'| < irrTol := by
  intro fuel
  induction fuel with
  | zero => intro r r' h; simp [newtonIter] at h
  | succ fuel ih =>
    intro r r' h
    rw [newtonIter] at h
    by_cases h1 : |npvAt cashFlows r| < irrTol
    · simp only [h1, if_pos] at h
      cases h
      exact h1
    · simp only [h1, if_neg, if_false] at h
      by_cases h2 : npvDerivAt cashFlows r = 0
      · simp [h2] at h
      · simp only [h2, if_neg, if_false] at h
        exact ih _ _ h

lemma bisectIter_tol (cashFlows : List ℚ) :
    ∀ (fuel : ℕ) (lo hi r' : ℚ), bisectIter cashFlows fuel lo hi = Option.some r' →
      |npvAt cashFlows r'| < irrTol := by
  intro fuel
  induction fuel with
  | zero =>
    intro lo hi r' h
    rw [bisectIter] at h
    by_cases h1 : |npvAt cashFlows ((lo + hi) / 2)| < irrTol
    · simp only [h1, if_pos] at h
      cases h
      exact h1
    · simp [h1] at h
  | succ fuel ih =>
    intro lo hi r' h
    rw [bisectIter] at h
    by_cases h1 : |npvAt cashFlows ((lo + hi) / 2)| < irrTol
    · simp only [h1, if_pos] at h
      cases h
      exact h1
    · simp only [h1, if_neg, if_false] at h
      by_cases h2 : npvAt cashFlows lo * npvAt cashFlows ((lo + hi) / 2) < 0
      · simp only [h2, if_pos] at h
        exact ih _ _ _ h
      · simp only [h2, if_neg, if_false] at h
        exact ih _ _ _ h

lemma newtonSolve_tol (cashFlows : List ℚ) (r' : ℚ)
    (h : newtonSolve cashFlows = Option.some r') : |npvAt cashFlows r'| < irrTol :=
  newtonIter_tol cashFlows 100 (1 / 10) r' h

lemma bisectionSolve_tol (cashFlows : List ℚ) (r' : ℚ)
    (h : bisectionSolve cashFlows = Option.some r') : |npvAt cashFlows r'| < irrTol := by
  rw [bisectionSolve] at h
  by_cases h1 : npvAt cashFlows (-99 / 100) * npvAt cashFlows 10 < 0
  · simp only [h1, if_pos] at h
    exact bisectIter_tol cashFlows 200 _ _ _ h
  · simp [h1] at h

/-! ## Claim theorems -/

/-- C1: the tier grade is assigned by fixed thresholds with
boundaries inclusive of the lower bound (≥80 Investment Grade, 65–79
Near Investment Grade, 50–64 Sub-Investment Grade, 35–49 Speculative,
below 35 Pre-Bankable); in particular a score of exactly 80.0 maps to
Investment Grade and 79.999 maps to Near Investment Grade. -/
theorem tierGrade_thresholds :
    (∀ s : ℚ, tierGrade s = claimGradeThresholds s)
      ∧ tierGrade 80 = "Investment Grade"
      ∧ tierGrade (79999 / 1000) = "Near Investment Grade" := by
  refine ⟨fun s => ?_, by norm_num [tierGrade], by norm_num [tierGrade]⟩
  unfold tierGrade claimGradeThresholds
  split_ifs <;> first | rfl | linarith

/-- C8: `window.formatCurrency` returns `"N/A"` exactly for `null`,
`undefined` and `NaN` inputs; every numeric input yields `"$"`
followed by the en-US zero-fraction-digit rendering of the value (in
particular the output begins with `"$"`), and the function is total
(never throws). -/
theorem formatCurrency_na_and_dollar :
    (∀ v : JSValue, formatCurrency v = "N/A" ↔
        (v = JSValue.null ∨ v = JSValue.undef ∨ v = JSValue.nan))
      ∧ (∀ q : ℚ, ∃ rest : String,
          formatCurrency (JSValue.num q) = "$" ++ rest ∧ rest = toLocaleEnUS0 q) := by
  constructor
  · intro v
    cases v with
    | null => simp [formatCurrency]
    | undef => simp [formatCurrency]
    | nan => simp [formatCurrency]
    | num q =>
      simp only [formatCurrency]
      constructor
      · intro h
        have hd := congrArg String.data h
        rw [String.data_append] at hd
        simp at hd
      · intro h
        rcases h with h | h | h <;> cases h
  · intro q
    exact ⟨toLocaleEnUS0 q, rfl, rfl⟩

/-- C9: `window.formatPercent` formats with `decimals || 1` fraction
digits, so `decimals = 0` (and the omitted argument, both falsy)
produce one decimal place; the effective digit count is never zero;
and `null`, `undefined`, `NaN` inputs return `"N/A"`. -/
theorem formatPercent_min_one_decimal :
    (∀ (q : ℚ) (d : Option ℕ),
        formatPercent (JSValue.num q) d = toFixed q (truthyDecimals d) ++ "%")
      ∧ (∀ d : Option ℕ, 1 ≤ truthyDecimals d)
      ∧ (∀ q : ℚ, formatPercent (JSValue.num q) (Option.some 0)
          = formatPercent (JSValue.num q) Option.none)
      ∧ (∀ d : Option ℕ, formatPercent JSValue.null d = "N/A"
          ∧ formatPercent JSValue.undef d = "N/A"
          ∧ formatPercent JSValue.nan d = "N/A") := by
  refine ⟨fun q d => rfl, fun d => ?_, fun q => rfl, fun d => ⟨rfl, rfl, rfl⟩⟩
  match d with
  | Option.none => exact le_refl 1
  | Option.some 0 => exact le_refl 1
  | Option.some (n + 1) => exact Nat.succ_le_succ (Nat.zero_le n)

/-- C10: `window.initResultsCharts` with a `null`/`undefined` or
empty `cashFlows` argument returns immediately and renders no chart
at all — including the sub-score radar, whatever the `subScores`
argument holds. -/
theorem initResultsCharts_empty_guard :
    (∀ (dom : DOMState) (subScores : List SSRow),
        initResultsCharts dom Option.none subScores = [])
      ∧ ∀ (dom : DOMState) (subScores : List SSRow),
          initResultsCharts dom (Option.some []) subScores = [] :=
  ⟨fun _ _ => rfl, fun _ _ => rfl⟩

/-- C3: `runFinancialModel` returns exactly `projectLife` CashFlowYear
entries, and the cumulative cash flow column equals the running sums
of the free cash flow column (entry N holds the sum of entries
1..N). -/
theorem financialModel_length_and_cumulative (inp : ProjectInput) (cfg : FMConfig) :
    (runFinancialModel inp cfg).cashFlows.length = cfg.projectLife
      ∧ (runFinancialModel inp cfg).cashFlows.map CashFlowYear.cumulative
          = specCumulativeSums
              ((runFinancialModel inp cfg).cashFlows.map CashFlowYear.freeCashFlow) := by
  rw [runFinancialModel_cashFlows]
  constructor
  · exact buildRows_length inp cfg cfg.projectLife 1 0
  · have h := buildRows_cumulative inp cfg cfg.projectLife 1 0
    simpa [cashFlowSeries] using h

/-- C5: in every CashFlowYear produced by the financial model, a year
whose debt service is zero (post-tenor) carries the DSCR sentinel
`Option.none`; the DSCR computation is total and never divides by
zero. -/
theorem dscr_sentinel_on_zero_debt (inp : ProjectInput) (cfg : FMConfig) :
    ((runFinancialModel inp cfg).cashFlows.all
      (fun e => decide (e.debtService = 0 → e.dscr = Option.none))) = true := by
  rw [runFinancialModel_cashFlows]
  rw [List.all_eq_true]
  intro e he
  rw [decide_eq_true_eq]
  exact buildRows_dscr_sentinel inp cfg cfg.projectLife 1 0 e he

/-- C6: `internalRateOfReturn` either returns a converged rate (one
whose NPV magnitude is below the solver tolerance) or the "not
computed" sentinel `Option.none`, and never raises: it is the total
state machine Newton-Raphson (up to the iteration cap) → bisection
over the bounded rate range → sentinel. -/
theorem irr_fallback_and_converged (cashFlows : List ℚ) :
    internalRateOfReturn cashFlows
        = ((newtonSolve cashFlows).orElse (fun _ => bisectionSolve cashFlows))
      ∧ ((internalRateOfReturn cashFlows).all
          (fun r => decide (|npvAt cashFlows r| < irrTol))) = true := by
  constructor
  · unfold internalRateOfReturn
    cases h : newtonSolve cashFlows <;> rfl
  · unfold internalRateOfReturn
    cases hn : newtonSolve cashFlows with
    | some r =>
      simp only [Option.all]
      rw [decide_eq_true_eq]
      exact newtonSolve_tol cashFlows r hn
    | none =>
      cases hb : bisectionSolve cashFlows with
      | some r =>
        simp only [Option.all]
        rw [decide_eq_true_eq]
        exact bisectionSolve_tol cashFlows r hb
      | none => rfl

/-- C2: in every BankabilityResult the overall score equals the
weighted sum of the five dimension sub-scores with weights Technology
0.20, Financial 0.25, Credit 0.20, Structure 0.20, Market 0.15; the
weights sum to 1.0 within 1e-9; and the overall score lies in
[0, 100]. -/
theorem overall_weighted_sum_and_bounds (inp : ProjectInput) (cfg : FMConfig) :
    (scoreBankability inp cfg).overall
        = defaultWeights.technology * (scoreBankability inp cfg).technology.score
          + defaultWeights.financial * (scoreBankability inp cfg).financial.score
          + defaultWeights.credit * (scoreBankability inp cfg).credit.score
          + defaultWeights.structur * (scoreBankability inp cfg).structur.score
          + defaultWeights.market * (scoreBankability inp cfg).market.score
      ∧ |defaultWeights.technology + defaultWeights.financial + defaultWeights.credit
          + defaultWeights.structur + defaultWeights.market - 1| ≤ 1 / 1000000000
      ∧ 0 ≤ (scoreBankability inp cfg).overall
      ∧ (scoreBankability inp cfg).overall ≤ 100 := by
  have ht := clampScore_bounds (techMaturityPoints inp.technologyType
    + 2 / 5 * inp.resourceQuality)
  have hf := clampScore_bounds (dscrPoints (runFinancialModel inp cfg).minDSCR
    + irrPoints (runFinancialModel inp cfg).irr + leveragePoints inp.leverage)
  have hc := clampScore_bounds (ratingPoints inp.counterpartyRating
    + contractPoints inp.offtakeContract
    + pdPoints (assessCreditRisk inp (runFinancialModel inp cfg)).pd)
  have hs := clampScore_bounds (stagePoints inp.developmentStage
    + statusPoints inp.permittingStatus + statusPoints inp.interconnectionStatus
    + epcPoints inp.epcContractType)
  have hm := clampScore_bounds (pricePoints inp.contractPrice inp.merchantPrice
    + 1 / 2 * inp.regulatoryEnvironment)
  have hoverall : (scoreBankability inp cfg).overall
      = 20 / 100 * clampScore (techMaturityPoints inp.technologyType
          + 2 / 5 * inp.resourceQuality)
        + 25 / 100 * clampScore (dscrPoints (runFinancialModel inp cfg).minDSCR
          + irrPoints (runFinancialModel inp cfg).irr + leveragePoints inp.leverage)
        + 20 / 100 * clampScore (ratingPoints inp.counterpartyRating
          + contractPoints inp.offtakeContract
          + pdPoints (assessCreditRisk inp (runFinancialModel inp cfg)).pd)
        + 20 / 100 * clampScore (stagePoints inp.developmentStage
          + statusPoints inp.permittingStatus + statusPoints inp.interconnectionStatus
          + epcPoints inp.epcContractType)
        + 15 / 100 * clampScore (pricePoints inp.contractPrice inp.merchantPrice
          + 1 / 2 * inp.regulatoryEnvironment) := rfl
  refine ⟨rfl, by norm_num [defaultWeights], ?_, ?_⟩
  · rw [hoverall]
    linarith [ht.1, hf.1, hc.1, hs.1, hm.1]
  · rw [hoverall]
    linarith [ht.2, hf.2, hc.2, hs.2, hm.2]

/-- C4: `scoreBankability` is deterministic — identical ProjectInput
and identical configuration yield identical BankabilityResult values,
with no randomness and no hidden state. -/
theorem scoreBankability_deterministic (inp1 inp2 : ProjectInput)
    (cfg1 cfg2 : FMConfig) (h1 : inp1 = inp2) (h2 : cfg1 = cfg2) :
    scoreBankability inp1 cfg1 = scoreBankability inp2 cfg2 := by
  subst h1
  subst h2
  rfl

/-- Witness for C4 at the concrete sample project. -/
theorem scoreBankability_deterministic_witness :
    sampleInput = sampleInput ∧ sampleConfig = sampleConfig ∧
      scoreBankability sampleInput sampleConfig
        = scoreBankability sampleInput sampleConfig :=
  ⟨rfl, rfl,
    scoreBankability_deterministic sampleInput sampleInput sampleConfig sampleConfig
      rfl rfl⟩

/-- C7: the sensitivity sweep's perturbations never compound: for two
distinct factors, the entries recorded for the second factor — and
every entry's recorded base-case values — are the same whether or not
the first factor is also being perturbed in the sweep; the base
ProjectInput itself is never modified. -/
theorem runSensitivity_independent (inp : ProjectInput) (cfg : FMConfig)
    (f1 f2 : SensFactor) (h : f1 ≠ f2) :
    ((runSensitivity inp cfg [f1, f2]).filter (fun e => decide (e.factor = f2)))
        = runSensitivity inp cfg [f2]
      ∧ ((runSensitivity inp cfg [f1, f2]).all
          (fun e => decide (e.baseNPV = (runFinancialModel inp cfg).npv))) = true := by
  constructor
  · simp [runSensitivity, perturbLevels, sensEntry, h]
  · simp [runSensitivity, perturbLevels, sensEntry]

/-- Witness for C7: perturbing operating cost does not alter the
capital-cost entries, at the concrete sample project. -/
theorem runSensitivity_independent_witness :
    SensFactor.operatingCost ≠ SensFactor.capitalCost ∧
      (((runSensitivity sampleInput sampleConfig
            [SensFactor.operatingCost, SensFactor.capitalCost]).filter
              (fun e => decide (e.factor = SensFactor.capitalCost)))
          = runSensitivity sampleInput sampleConfig [SensFactor.capitalCost]
        ∧ ((runSensitivity sampleInput sampleConfig
            [SensFactor.operatingCost, SensFactor.capitalCost]).all
            (fun e => decide (e.baseNPV
              = (runFinancialModel sampleInput sampleConfig).npv))) = true) :=
  ⟨by decide,
    runSensitivity_independent sampleInput sampleConfig
      SensFactor.operatingCost SensFactor.capitalCost (by decide)⟩
